import Mathlib

/-!
Shallow embedding of the license backend (`src/main.py`) of the
`monetizado` repository: code generation, license-record creation,
payment-status interpretation, the PagBank webhook flow, and license
validation.  Instants (Python `datetime`) are modelled as `Int`
seconds since the epoch; `timedelta(days = n)` is `n * 86400` seconds.
External effects (the Firestore client, the PagBank lookup, SMTP) are
passed in as explicit parameters; a Python exception escaping the
handler is modelled as `Except.error`.
-/

/-- Python exceptions that can escape the functions we model. -/
inductive PyErr where
  /-- `RuntimeError` raised when the Firestore client is `None`. -/
  | runtimeError : PyErr
  /-- an exception raised by a Firestore write call -/
  | storeError : PyErr
  /-- an exception raised by `smtplib` while sending the email -/
  | smtpError : PyErr
  /-- models non-termination of the unbounded collision-retry loop:
  the supplied prefix of generator draws was exhausted with every
  drawn code already present in the store -/
  | drawsExhausted : PyErr
deriving DecidableEq

/-- Python `str.strip()` on a list of characters: drop leading and
trailing whitespace. -/
def pyStripList (l : List Char) : List Char :=
  ((l.dropWhile Char.isWhitespace).reverse.dropWhile Char.isWhitespace).reverse

/-- Python `str.strip()`. -/
def pyStrip (s : String) : String :=
  String.mk (pyStripList s.toList)

/-- Python `str.upper()` (the strings this service handles are ASCII). -/
def pyUpper (s : String) : String :=
  String.mk (s.toList.map Char.toUpper)

/-- Python truthiness of an optional string: `None` and `""` are falsy. -/
def pyTruthyStr : Option String → Bool
  | none => false
  | some s => !(s == "")

/-- Python `a or b` on two optional strings (`dict.get` results):
yields `b` when `a` is `None` or the empty string. -/
def pyOrStr (a b : Option String) : Option String :=
  match a with
  | none => b
  | some s => if s == "" then b else some s

/-- Valid continuation of a Python integer-literal digit run: digits,
with single underscores allowed only between digits. -/
def pyDigitsRest : List Char → Bool
  | [] => true
  | '_' :: [] => false
  | '_' :: c :: rest => c.isDigit && pyDigitsRest rest
  | c :: rest => c.isDigit && pyDigitsRest rest

/-- A valid Python integer digit run: nonempty, starts with a digit. -/
def pyDigits : List Char → Bool
  | [] => false
  | c :: rest => c.isDigit && pyDigitsRest rest

/-- Numeric value of a digit run, skipping grouping underscores. -/
def natOfPyDigits (acc : Nat) : List Char → Nat
  | [] => acc
  | '_' :: rest => natOfPyDigits acc rest
  | c :: rest => natOfPyDigits (acc * 10 + (c.toNat - 48)) rest

/-- Python `int(s)`: strip surrounding whitespace, optional sign, then
a digit run (ASCII digits, single grouping underscores); `none` models
the `ValueError` raised on anything else. -/
def pyInt (s : String) : Option Int :=
  match pyStripList s.toList with
  | '-' :: rest => if pyDigits rest then some (-(natOfPyDigits 0 rest : Int)) else none
  | '+' :: rest => if pyDigits rest then some ((natOfPyDigits 0 rest : Int)) else none
  | l => if pyDigits l then some ((natOfPyDigits 0 l : Int)) else none

/-- `status_pagbank_e_pago` from `src/main.py`: a transaction status
string counts as paid when it parses as the integer 3 (paid) or
4 (available); `None`, the empty string, and unparsable strings do not. -/
def status_pagbank_e_pago (status_str : Option String) : Bool :=
  match status_str with
  | none => false
  | some v =>
    if v == "" then false
    else
      match pyInt v with
      | none => false
      | some s => s == 3 || s == 4

/-- `string.ascii_uppercase + string.digits`, the draw alphabet of the
code generator. -/
def caracteres : List Char := "ABCDEFGHIJKLMNOPQRSTUVWXYZ0123456789".toList

/-- `gerar_codigo_licenca` from `src/main.py`.  `random.choice` is
modelled by the draw stream `draws`: the i-th call returns the
character of `caracteres` at index `draws i`.  The drawn base string
is split as `base[:4] + "-" + base[4:]`. -/
def gerar_codigo_licenca (draws : Nat → Fin 36) (tamanho : Nat) : String :=
  let base := (List.range tamanho).map (fun i => caracteres.getD (draws i).val 'A')
  String.mk (base.take 4) ++ "-" ++ String.mk (base.drop 4)

/-- The stored `expira_em` field of a Firestore document: it may be
absent, hold a non-datetime value, or hold a datetime (epoch seconds). -/
inductive ExpiraField where
  | absent : ExpiraField
  | notDatetime : ExpiraField
  | dt : Int → ExpiraField
deriving DecidableEq

/-- A license document in the `sticky-notes` Firestore collection,
keyed by the license code.  `status` is optional because
`validar_licenca` reads it with `lic.get("status", "ativo")`. -/
structure Doc where
  email : String
  cpf : Option String
  status : Option String
  compra_em : Int
  expira_em : ExpiraField
  plano : String
  origem_pagamento : String
  id_transacao_pagbank : String
deriving DecidableEq

/-- The Firestore collection, as a key-value map from license code to
document. -/
def Store := String → Option Doc

/-- `doc_ref.set(...)`: create or fully overwrite the document at a key. -/
def putDoc (store : Store) (codigo : String) (d : Doc) : Store :=
  fun c => if c = codigo then some d else store c

/-- `doc_ref.update({"status": novo})`: partial update of the status
field, leaving every other field unchanged. -/
def updateStatus (store : Store) (codigo novo : String) : Store :=
  fun c =>
    if c = codigo then (store c).map (fun d => { d with status := some novo })
    else store c

/-- `criar_documento_licenca` from `src/main.py`: builds the document
written for a fresh license.  `agora` is `datetime.now(timezone.utc)`
in epoch seconds and `licenceDays` is `DEFAULT_LICENCE_DAYS`
(`LICENCE_DAYS` env var, default 30); `timedelta(days = n)` is
`n * 86400` seconds. -/
def criar_documento_licenca (licenceDays : Nat) (agora : Int)
    (codigo email : String) (cpf : Option String)
    (id_transacao_pagbank : String) (plano : String) : Doc :=
  { email := email
    cpf := cpf
    status := some "ativo"
    compra_em := agora
    expira_em := ExpiraField.dt (agora + (licenceDays : Int) * 86400)
    plano := plano
    origem_pagamento := "pagbank"
    id_transacao_pagbank := id_transacao_pagbank }

example : status_pagbank_e_pago (some "3") = true := by decide
example : status_pagbank_e_pago (some "4") = true := by decide
example : status_pagbank_e_pago (some "7") = false := by decide
example : status_pagbank_e_pago (some "") = false := by decide
example : status_pagbank_e_pago none = false := by decide
example : status_pagbank_e_pago (some "abc") = false := by decide
example : status_pagbank_e_pago (some " 3 ") = true := by decide
example : status_pagbank_e_pago (some "+4") = true := by decide
example : status_pagbank_e_pago (some "3.0") = false := by decide

/-- The SMTP environment seen by `enviar_email_licenca`: the settings
may be incomplete (the function then only prints the license data and
returns), or complete with the send succeeding, or complete with
`smtplib` raising. -/
inductive EmailEnv where
  | smtpNaoConfigurado : EmailEnv
  | smtpOk : EmailEnv
  | smtpFalha : EmailEnv
deriving DecidableEq

/-- `enviar_email_licenca` from `src/main.py`.  With incomplete SMTP
settings it logs the license data and returns normally; otherwise it
sends the message, and an exception raised by `smtplib` escapes. -/
def enviar_email_licenca (env : EmailEnv) (para_email codigo_licenca : String) :
    Except PyErr Unit :=
  match env with
  | EmailEnv.smtpNaoConfigurado => Except.ok ()
  | EmailEnv.smtpOk => Except.ok ()
  | EmailEnv.smtpFalha => Except.error PyErr.smtpError

/-- The dictionary returned by `consultar_notificacao_pagbank`: the
fields extracted from the provider's XML, each possibly missing
(`findtext` returns `None` when the element is absent). -/
structure PagInfo where
  status : Option String
  transaction_code : Option String
  reference : Option String
  email : Option String
  cpf : Option String
deriving DecidableEq

/-- The form-encoded webhook body after `parse_qs`, restricted to the
keys the handler reads. -/
structure FormBody where
  notificationCode : Option String
  notification_code : Option String
  notificationType : Option String
  notification_type : Option String
deriving DecidableEq

/-- A JSON webhook body, restricted to the keys the handler reads plus
the direct-payload keys (`status`, `transaction_id`, `customer.email`)
that the handler never consults. -/
structure JsonBody where
  notificationCode : Option String
  notification_code : Option String
  notificationType : Option String
  notification_type : Option String
  status : Option String
  transaction_id : Option String
  customer_email : Option String
deriving DecidableEq

/-- Lines 337-369 of `src/main.py`: extract `notificationCode` from the
form body when truthy, otherwise from the JSON body when the JSON
parse succeeds (`json = none` models `request.json()` raising, which
is caught and leaves the form value in place). -/
def extrair_notification_code (form : Option FormBody) (json : Option JsonBody) :
    Option String :=
  let nc_form : Option String :=
    match form with
    | some f => pyOrStr f.notificationCode f.notification_code
    | none => none
  if pyTruthyStr nc_form then nc_form
  else
    match json with
    | some j => pyOrStr j.notificationCode j.notification_code
    | none => nc_form

/-- The collision-retry loop of lines 404-406: take generator draws in
order until one names a code with no existing document.  `none` means
the supplied draw prefix was exhausted (the real loop would keep
drawing). -/
def sortear_codigo_livre (store : Store) : List String → Option String
  | [] => none
  | c :: rest =>
    if (store c).isSome then sortear_codigo_livre store rest
    else some c

/-- The JSON payload of a webhook response, restricted to the keys the
handler can emit; absent keys are `none`. -/
structure WebhookOut where
  httpStatus : Nat
  detail : Option String
  ok : Option Bool
  motivo : Option String
  ignored : Option Bool
  status : Option String
  licenca_gerada : Option String
  status_pagbank : Option String
  email : Option String
deriving DecidableEq

/-- The observable outcome of one webhook request: the response (or the
escaping exception), the resulting store, and how many times the email
send was attempted. -/
structure WebhookRun where
  resp : Except PyErr WebhookOut
  store : Option Store
  emails : Nat

/-- The 400 response of line 373: no `notificationCode` in the payload. -/
def respBadRequest : WebhookOut :=
  { httpStatus := 400
    detail := some "notificationCode nao encontrado no payload"
    ok := none, motivo := none, ignored := none, status := none
    licenca_gerada := none, status_pagbank := none, email := none }

/-- A 200 response with only `ok` and `motivo` keys. -/
def respMotivo (m : String) : WebhookOut :=
  { httpStatus := 200
    detail := none
    ok := some false, motivo := some m, ignored := none, status := none
    licenca_gerada := none, status_pagbank := none, email := none }

/-- Lines 378-428 of `src/main.py`: the webhook flow once a truthy
`notificationCode` has been extracted.  `consultar` is the provider
lookup `consultar_notificacao_pagbank` (`none` models every failure
path inside it: missing credentials, transport error, non-200, XML
parse error). -/
def pagbank_webhook_apos_codigo (consultar : String → Option PagInfo)
    (db : Option Store) (draws : List String) (env : EmailEnv)
    (licenceDays : Nat) (agora : Int) (notification_code : String) : WebhookRun :=
  match consultar notification_code with
  | none =>
    { resp := Except.ok (respMotivo "FALHA_CONSULTA_PAGBANK"), store := db, emails := 0 }
  | some info =>
    let status_str := info.status
    let email_cliente := info.email
    let cpf_cliente := info.cpf
    let transaction_code :=
      (pyOrStr info.transaction_code (some notification_code)).getD notification_code
    if pyTruthyStr email_cliente = false then
      { resp := Except.ok (respMotivo "SEM_EMAIL_CLIENTE"), store := db, emails := 0 }
    else if status_pagbank_e_pago status_str = false then
      { resp := Except.ok
          { httpStatus := 200, detail := none, ok := some true, motivo := none
            ignored := some true, status := status_str
            licenca_gerada := none, status_pagbank := none, email := none }
        store := db, emails := 0 }
    else
      match db with
      | none =>
        { resp := Except.ok (respMotivo "FIRESTORE_INDISPONIVEL"), store := none, emails := 0 }
      | some store =>
        match sortear_codigo_livre store draws with
        | none => { resp := Except.error PyErr.drawsExhausted, store := some store, emails := 0 }
        | some codigo =>
          let doc := criar_documento_licenca licenceDays agora codigo
            (email_cliente.getD "") cpf_cliente transaction_code "mensal"
          let store2 := putDoc store codigo doc
          match enviar_email_licenca env (email_cliente.getD "") codigo with
          | Except.error e => { resp := Except.error e, store := some store2, emails := 1 }
          | Except.ok _ =>
            { resp := Except.ok
                { httpStatus := 200, detail := none, ok := some true, motivo := none
                  ignored := none, status := none
                  licenca_gerada := some codigo, status_pagbank := status_str
                  email := email_cliente }
              store := some store2, emails := 1 }

/-- `pagbank_webhook` from `src/main.py`: extract the notification
code from the form or JSON body; with no truthy code, answer 400 and
touch nothing; otherwise run the lookup-and-issue flow. -/
def pagbank_webhook (consultar : String → Option PagInfo) (db : Option Store)
    (draws : List String) (env : EmailEnv) (licenceDays : Nat) (agora : Int)
    (form : Option FormBody) (json : Option JsonBody) : WebhookRun :=
  match extrair_notification_code form json with
  | none => { resp := Except.ok respBadRequest, store := db, emails := 0 }
  | some v =>
    if v = "" then { resp := Except.ok respBadRequest, store := db, emails := 0 }
    else pagbank_webhook_apos_codigo consultar db draws env licenceDays agora v

/-- The `LicencaValidarResponse` model of `src/main.py`; `expira_em`
carries the instant whose ISO-8601 rendering the real response holds
(the rendering is injective in the instant). -/
structure LicencaValidarResponse where
  ok : Bool
  motivo : Option String
  expira_em : Option Int
  api_key_meudanfe : Option String
deriving DecidableEq

/-- Lines 438-441 of `src/main.py`: strip and uppercase the presented
code, and peel a leading `@#` marker. -/
def normalizar_codigo (licenca : String) : String :=
  let codigo := pyUpper (pyStrip licenca)
  match codigo.toList with
  | '@' :: '#' :: rest => pyUpper (pyStrip (String.mk rest))
  | _ => codigo

/-- `buscar_licenca` from `src/main.py`: raises when the Firestore
client is `None`, otherwise returns the document (or `None`). -/
def buscar_licenca (db : Option Store) (codigo : String) :
    Except PyErr (Option Doc) :=
  match db with
  | none => Except.error PyErr.runtimeError
  | some store => Except.ok (store codigo)

/-- `validar_licenca` from `src/main.py`.  `agora` is the current UTC
instant; `updateRaises` tells whether the Firestore `update` call
raises.  On success it returns the response, the resulting store
handle, and the number of store writes performed. -/
def validar_licenca (db : Option Store) (updateRaises : Bool) (agora : Int)
    (licenca : String) :
    Except PyErr (LicencaValidarResponse × Option Store × Nat) :=
  let codigo := normalizar_codigo licenca
  match buscar_licenca db codigo with
  | Except.error e => Except.error e
  | Except.ok none =>
    Except.ok
      ({ ok := false, motivo := some "LICENCA_INEXISTENTE"
         expira_em := none, api_key_meudanfe := none }, db, 0)
  | Except.ok (some lic) =>
    let status := lic.status.getD "ativo"
    if status ≠ "ativo" then
      Except.ok
        ({ ok := false, motivo := some ("LICENCA_" ++ pyUpper status)
           expira_em := none, api_key_meudanfe := none }, db, 0)
    else
      let expira_dt : Option Int :=
        match lic.expira_em with
        | ExpiraField.dt t => some t
        | _ => none
      match expira_dt with
      | some t =>
        if t < agora then
          if updateRaises then Except.error PyErr.storeError
          else
            Except.ok
              ({ ok := false, motivo := some "LICENCA_EXPIRADA"
                 expira_em := some t, api_key_meudanfe := none },
               db.map (fun s => updateStatus s codigo "expirado"), 1)
        else
          Except.ok
            ({ ok := true, motivo := none
               expira_em := some t, api_key_meudanfe := none }, db, 0)
      | none =>
        Except.ok
          ({ ok := true, motivo := none
             expira_em := none, api_key_meudanfe := none }, db, 0)

/-- The regex `^[A-Z0-9]{4}-[A-Z0-9]{4}$` as a predicate on strings. -/
def isUpperOrDigit (c : Char) : Bool :=
  ('A' ≤ c && c ≤ 'Z') || ('0' ≤ c && c ≤ '9')

/-- A string matches `^[A-Z0-9]{4}-[A-Z0-9]{4}$`. -/
def matchesCodeFormat (s : String) : Bool :=
  match s.toList with
  | [a, b, c, d, e, f, g, h, i] =>
    isUpperOrDigit a && isUpperOrDigit b && isUpperOrDigit c && isUpperOrDigit d &&
      (e == '-') &&
      isUpperOrDigit f && isUpperOrDigit g && isUpperOrDigit h && isUpperOrDigit i
  | _ => false

theorem isUpperOrDigit_caracteres :
    ∀ j : Fin 36, isUpperOrDigit (caracteres.getD j.val 'A') = true := by decide

theorem gerar_codigo_licenca_toList (draws : Nat → Fin 36) :
    (gerar_codigo_licenca draws 8).toList =
      [caracteres.getD (draws 0).val 'A', caracteres.getD (draws 1).val 'A',
       caracteres.getD (draws 2).val 'A', caracteres.getD (draws 3).val 'A', '-',
       caracteres.getD (draws 4).val 'A', caracteres.getD (draws 5).val 'A',
       caracteres.getD (draws 6).val 'A', caracteres.getD (draws 7).val 'A'] := rfl

/-- C1: `status_pagbank_e_pago s` is true exactly when `s` is a present
string that Python `int` parses to 3 or 4; a missing, empty, or
non-numeric status is not paid. -/
theorem c1_status_pagbank_e_pago_iff (s : Option String) :
    status_pagbank_e_pago s = true ↔
      ∃ v, s = some v ∧ (pyInt v = some 3 ∨ pyInt v = some 4) := by
  cases s with
  | none => simp [status_pagbank_e_pago]
  | some v =>
    simp only [status_pagbank_e_pago]
    by_cases hv : v = ""
    · subst hv
      constructor
      · intro h; exact absurd h (by decide)
      · rintro ⟨w, hw, h⟩
        obtain rfl : "" = w := by simpa using hw
        rcases h with h | h <;> exact absurd h (by decide)
    · rw [if_neg (by simpa using hv)]
      cases hp : pyInt v with
      | none => simp [hp]
      | some n => simp [hp]

/-- C8: every record built by `criar_documento_licenca` (the only
record constructor of the issuance path) has
`expira_em = compra_em + licenceDays * 86400` seconds; with the
default 30-day window, `expira_em` is strictly after `compra_em`. -/
theorem c8_expira_em_janela (licenceDays : Nat) (agora : Int)
    (codigo email : String) (cpf : Option String) (idt plano : String) :
    (criar_documento_licenca licenceDays agora codigo email cpf idt plano).expira_em
        = ExpiraField.dt
            ((criar_documento_licenca licenceDays agora codigo email cpf idt plano).compra_em
              + (licenceDays : Int) * 86400)
      ∧ ∃ t, (criar_documento_licenca 30 agora codigo email cpf idt plano).expira_em
              = ExpiraField.dt t
          ∧ (criar_documento_licenca 30 agora codigo email cpf idt plano).compra_em < t := by
  refine ⟨rfl, agora + 30 * 86400, rfl, ?_⟩
  show agora < agora + 30 * 86400
  omega

/-- C9: every code produced by `gerar_codigo_licenca` at the default
length 8, whatever the random draws, matches
`^[A-Z0-9]{4}-[A-Z0-9]{4}$`. -/
theorem c9_formato_codigo (draws : Nat → Fin 36) :
    matchesCodeFormat (gerar_codigo_licenca draws 8) = true := by
  unfold matchesCodeFormat
  rw [gerar_codigo_licenca_toList]
  simp only [Bool.and_eq_true, beq_iff_eq]
  exact ⟨⟨⟨⟨⟨⟨⟨⟨isUpperOrDigit_caracteres (draws 0), isUpperOrDigit_caracteres (draws 1)⟩,
    isUpperOrDigit_caracteres (draws 2)⟩, isUpperOrDigit_caracteres (draws 3)⟩, trivial⟩,
    isUpperOrDigit_caracteres (draws 4)⟩, isUpperOrDigit_caracteres (draws 5)⟩,
    isUpperOrDigit_caracteres (draws 6)⟩, isUpperOrDigit_caracteres (draws 7)⟩

/-- A one-document store fixture. -/
def mkStore (code : String) (d : Doc) : Store :=
  fun c => if c = code then some d else none

/-- A stored document fixture with the given status and expiration. -/
def mkLic (st : Option String) (e : ExpiraField) : Doc :=
  { email := "a@b.com", cpf := none, status := st, compra_em := 0
    expira_em := e, plano := "mensal", origem_pagamento := "pagbank"
    id_transacao_pagbank := "T1" }

/-- C10: a stored record with status `ativo` whose `expira_em` is
absent or not a datetime validates with `ok = true`, `expira_em`
null, and no store write, whatever the current time: it never expires
through the validator. -/
theorem c10_sem_expira_em_sempre_ok (store : Store) (inp codigo : String)
    (lic : Doc) (updateRaises : Bool) (agora : Int)
    (hcod : normalizar_codigo inp = codigo)
    (hlic : store codigo = some lic)
    (hstatus : lic.status = some "ativo")
    (hexp : lic.expira_em = ExpiraField.absent ∨ lic.expira_em = ExpiraField.notDatetime) :
    validar_licenca (some store) updateRaises agora inp =
      Except.ok
        ({ ok := true, motivo := none, expira_em := none, api_key_meudanfe := none },
         some store, 0) := by
  rcases hexp with h | h <;>
    simp [validar_licenca, buscar_licenca, hcod, hlic, hstatus, h]

theorem c10_witness :
    normalizar_codigo "AAAA-0001" = "AAAA-0001"
    ∧ mkStore "AAAA-0001" (mkLic (some "ativo") ExpiraField.absent) "AAAA-0001"
        = some (mkLic (some "ativo") ExpiraField.absent)
    ∧ (mkLic (some "ativo") ExpiraField.absent).status = some "ativo"
    ∧ validar_licenca (some (mkStore "AAAA-0001" (mkLic (some "ativo") ExpiraField.absent)))
        true 999999999 "AAAA-0001" =
        Except.ok
          ({ ok := true, motivo := none, expira_em := none, api_key_meudanfe := none },
           some (mkStore "AAAA-0001" (mkLic (some "ativo") ExpiraField.absent)), 0) :=
  ⟨rfl, rfl, rfl,
    c10_sem_expira_em_sempre_ok _ _ _ _ true 999999999 rfl rfl rfl (Or.inl rfl)⟩

/-- C3: validating an active record whose datetime `expira_em` lies in
the past returns `ok = false` with `LICENCA_EXPIRADA` and the stale
instant, performing exactly one store write that sets the status to
`expirado`; a second validation of the same code then returns
`LICENCA_EXPIRADO` with no further write and leaves the store (hence
the `expirado` status) untouched, at any later instant. -/
theorem c3_expiracao_idempotente (store : Store) (inp codigo : String)
    (lic : Doc) (t agora agora2 : Int)
    (hcod : normalizar_codigo inp = codigo)
    (hlic : store codigo = some lic)
    (hstatus : lic.status = some "ativo")
    (hexp : lic.expira_em = ExpiraField.dt t)
    (hlt : t < agora) :
    validar_licenca (some store) false agora inp =
      Except.ok
        ({ ok := false, motivo := some "LICENCA_EXPIRADA"
           expira_em := some t, api_key_meudanfe := none },
         some (updateStatus store codigo "expirado"), 1)
    ∧ validar_licenca (some (updateStatus store codigo "expirado")) false agora2 inp =
        Except.ok
          ({ ok := false, motivo := some "LICENCA_EXPIRADO"
             expira_em := none, api_key_meudanfe := none },
           some (updateStatus store codigo "expirado"), 0) := by
  constructor
  · simp [validar_licenca, buscar_licenca, hcod, hlic, hstatus, hexp, hlt]
  · simp [validar_licenca, buscar_licenca, hcod, updateStatus, hlic, hstatus,
      show ("LICENCA_" ++ pyUpper "expirado") = "LICENCA_EXPIRADO" from by decide]

theorem c3_witness :
    normalizar_codigo "TESTE-1234" = "TESTE-1234"
    ∧ mkStore "TESTE-1234" (mkLic (some "ativo") (ExpiraField.dt 100)) "TESTE-1234"
        = some (mkLic (some "ativo") (ExpiraField.dt 100))
    ∧ (100 : Int) < 200
    ∧ (validar_licenca (some (mkStore "TESTE-1234" (mkLic (some "ativo") (ExpiraField.dt 100))))
          false 200 "TESTE-1234" =
        Except.ok
          ({ ok := false, motivo := some "LICENCA_EXPIRADA"
             expira_em := some 100, api_key_meudanfe := none },
           some (updateStatus (mkStore "TESTE-1234" (mkLic (some "ativo") (ExpiraField.dt 100)))
             "TESTE-1234" "expirado"), 1)
        ∧ validar_licenca
            (some (updateStatus (mkStore "TESTE-1234" (mkLic (some "ativo") (ExpiraField.dt 100)))
              "TESTE-1234" "expirado")) false 300 "TESTE-1234" =
          Except.ok
            ({ ok := false, motivo := some "LICENCA_EXPIRADO"
               expira_em := none, api_key_meudanfe := none },
             some (updateStatus (mkStore "TESTE-1234" (mkLic (some "ativo") (ExpiraField.dt 100)))
               "TESTE-1234" "expirado"), 0)) :=
  ⟨rfl, rfl, by decide,
    c3_expiracao_idempotente _ _ _ _ 100 200 300 rfl rfl rfl rfl (by decide)⟩

/-- C5 (amended): the expired-transition store update is not
best-effort.  When the update call succeeds the validator returns
`ok = false` with `LICENCA_EXPIRADA` and the stale instant, but when
the update call raises the exception escapes `validar_licenca` and no
`LICENCA_EXPIRADA` response is returned to the caller. -/
theorem c5_update_nao_e_best_effort (store : Store) (inp codigo : String)
    (lic : Doc) (t agora : Int)
    (hcod : normalizar_codigo inp = codigo)
    (hlic : store codigo = some lic)
    (hstatus : lic.status = some "ativo")
    (hexp : lic.expira_em = ExpiraField.dt t)
    (hlt : t < agora) :
    validar_licenca (some store) true agora inp = Except.error PyErr.storeError
    ∧ validar_licenca (some store) false agora inp =
        Except.ok
          ({ ok := false, motivo := some "LICENCA_EXPIRADA"
             expira_em := some t, api_key_meudanfe := none },
           some (updateStatus store codigo "expirado"), 1) := by
  constructor
  · simp [validar_licenca, buscar_licenca, hcod, hlic, hstatus, hexp, hlt]
  · simp [validar_licenca, buscar_licenca, hcod, hlic, hstatus, hexp, hlt]

theorem c5_witness :
    normalizar_codigo "AAAA-0002" = "AAAA-0002"
    ∧ mkStore "AAAA-0002" (mkLic (some "ativo") (ExpiraField.dt 100)) "AAAA-0002"
        = some (mkLic (some "ativo") (ExpiraField.dt 100))
    ∧ (100 : Int) < 200
    ∧ (validar_licenca (some (mkStore "AAAA-0002" (mkLic (some "ativo") (ExpiraField.dt 100))))
          true 200 "AAAA-0002" = Except.error PyErr.storeError
        ∧ validar_licenca (some (mkStore "AAAA-0002" (mkLic (some "ativo") (ExpiraField.dt 100))))
            false 200 "AAAA-0002" =
          Except.ok
            ({ ok := false, motivo := some "LICENCA_EXPIRADA"
               expira_em := some 100, api_key_meudanfe := none },
             some (updateStatus (mkStore "AAAA-0002" (mkLic (some "ativo") (ExpiraField.dt 100)))
               "AAAA-0002" "expirado"), 1)) :=
  ⟨rfl, rfl, by decide,
    c5_update_nao_e_best_effort _ _ _ _ 100 200 rfl rfl rfl rfl (by decide)⟩

/-- C5 counterexample: on a concrete store holding an active record
expired at instant 100, checked at instant 200 with the update call
raising, the validator does not return any `LICENCA_EXPIRADA`
response — the claim that a failing update still reports expiration is
false on the code. -/
theorem c5_counterexample :
    ¬ ∃ resp rest,
        validar_licenca (some (mkStore "AAAA-0003" (mkLic (some "ativo") (ExpiraField.dt 100))))
            true 200 "AAAA-0003" = Except.ok (resp, rest)
          ∧ resp.ok = false ∧ resp.motivo = some "LICENCA_EXPIRADA" := by
  rintro ⟨resp, rest, h, -, -⟩
  rw [show validar_licenca
      (some (mkStore "AAAA-0003" (mkLic (some "ativo") (ExpiraField.dt 100))))
      true 200 "AAAA-0003" = Except.error PyErr.storeError from rfl] at h
  exact Except.noConfusion h

/-- The empty collection. -/
def emptyStore : Store := fun _ => none

/-- C2: when the provider-lookup result lacks a purchaser email, the
webhook creates no record and attempts no email send, whatever the
payment status (a paid 3 or 4 included): the store is returned
unchanged and the response reports `SEM_EMAIL_CLIENTE`. -/
theorem c2_sem_email_nao_gera_licenca
    (consultar : String → Option PagInfo) (db : Option Store)
    (draws : List String) (env : EmailEnv) (licenceDays : Nat) (agora : Int)
    (f : FormBody) (json : Option JsonBody) (nc : String) (info : PagInfo)
    (hnc : pyOrStr f.notificationCode f.notification_code = some nc)
    (hne : nc ≠ "")
    (hinfo : consultar nc = some info)
    (hemail : pyTruthyStr info.email = false) :
    pagbank_webhook consultar db draws env licenceDays agora (some f) json =
      { resp := Except.ok (respMotivo "SEM_EMAIL_CLIENTE"), store := db, emails := 0 } := by
  have hex : extrair_notification_code (some f) json = some nc := by
    simp [extrair_notification_code, hnc, pyTruthyStr, hne]
  simp [pagbank_webhook, hex, hne, pagbank_webhook_apos_codigo, hinfo, hemail]

/-- A lookup result with a recognized paid status 3 and no purchaser
email. -/
def infoC2 : PagInfo :=
  { status := some "3", transaction_code := some "TXC2", reference := none
    email := none, cpf := none }

theorem c2_witness :
    pyOrStr (some "NC2") none = some "NC2"
    ∧ "NC2" ≠ ""
    ∧ (fun _ : String => some infoC2) "NC2" = some infoC2
    ∧ pyTruthyStr infoC2.email = false
    ∧ status_pagbank_e_pago infoC2.status = true
    ∧ pagbank_webhook (fun _ => some infoC2) (some emptyStore) ["AB12-CD34"]
        EmailEnv.smtpOk 30 0
        (some { notificationCode := some "NC2", notification_code := none
                notificationType := none, notification_type := none }) none =
      { resp := Except.ok (respMotivo "SEM_EMAIL_CLIENTE")
        store := some emptyStore, emails := 0 } :=
  ⟨rfl, by decide, rfl, rfl, by decide,
    c2_sem_email_nao_gera_licenca _ _ _ _ _ _ _ _ _ _ rfl (by decide) rfl rfl⟩

/-- C7 (amended): a direct-payload JSON notification — status `PAID`,
`customer.email`, `transaction_id`, but no notification reference
code — is rejected with HTTP 400 and issues nothing: the store is
unchanged and no email is attempted.  The handler only issues licenses
through the reference-lookup mode. -/
theorem c7_payload_direto_rejeitado
    (consultar : String → Option PagInfo) (db : Option Store)
    (draws : List String) (env : EmailEnv) (licenceDays : Nat) (agora : Int)
    (j : JsonBody)
    (hnc : pyTruthyStr (pyOrStr j.notificationCode j.notification_code) = false) :
    pagbank_webhook consultar db draws env licenceDays agora none (some j) =
      { resp := Except.ok respBadRequest, store := db, emails := 0 } := by
  cases hv : pyOrStr j.notificationCode j.notification_code with
  | none => simp [pagbank_webhook, extrair_notification_code, pyTruthyStr, hv]
  | some s =>
    have hs : s = "" := by
      rw [hv] at hnc
      simpa [pyTruthyStr] using hnc
    subst hs
    simp [pagbank_webhook, extrair_notification_code, pyTruthyStr, hv]

/-- The direct-payload JSON body of C7: a paid status and purchaser
fields, but no notification reference code. -/
def jsonC7 : JsonBody :=
  { notificationCode := none, notification_code := none
    notificationType := none, notification_type := none
    status := some "PAID", transaction_id := some "T1"
    customer_email := some "a@b.com" }

theorem c7_witness :
    pyTruthyStr (pyOrStr jsonC7.notificationCode jsonC7.notification_code) = false
    ∧ pagbank_webhook (fun _ => none) (some emptyStore) [] EmailEnv.smtpOk 30 0
        none (some jsonC7) =
      { resp := Except.ok respBadRequest, store := some emptyStore, emails := 0 } :=
  ⟨rfl, c7_payload_direto_rejeitado _ _ _ _ _ _ _ rfl⟩

/-- C7 counterexample: on the concrete direct-payload body with
`status = "PAID"`, `customer.email = "a@b.com"`,
`transaction_id = "T1"` and no notification reference code, the
webhook answers HTTP 400, leaves the store empty (no record with any
field is created), and attempts no email — it does not issue the
license the claim describes. -/
theorem c7_counterexample :
    (pagbank_webhook (fun _ => none) (some emptyStore) [] EmailEnv.smtpOk 30 0
        none (some jsonC7)).resp = Except.ok respBadRequest
    ∧ (pagbank_webhook (fun _ => none) (some emptyStore) [] EmailEnv.smtpOk 30 0
        none (some jsonC7)).store = some emptyStore
    ∧ (pagbank_webhook (fun _ => none) (some emptyStore) [] EmailEnv.smtpOk 30 0
        none (some jsonC7)).emails = 0
    ∧ respBadRequest.httpStatus = 400
    ∧ respBadRequest.licenca_gerada = none :=
  ⟨rfl, rfl, rfl, rfl, rfl⟩

/-- Helper: on the paid path with a purchaser email and a fresh code
found, the webhook persists the new record at that code regardless of
the email outcome, and reports success exactly when the email step
does not raise. -/
theorem pagbank_webhook_persiste (consultar : String → Option PagInfo)
    (store : Store) (draws : List String) (env : EmailEnv)
    (licenceDays : Nat) (agora : Int) (f : FormBody) (json : Option JsonBody)
    (nc codigo : String) (info : PagInfo)
    (hnc : pyOrStr f.notificationCode f.notification_code = some nc)
    (hne : nc ≠ "")
    (hinfo : consultar nc = some info)
    (hemail : pyTruthyStr info.email = true)
    (hpago : status_pagbank_e_pago info.status = true)
    (hdraw : sortear_codigo_livre store draws = some codigo) :
    (pagbank_webhook consultar (some store) draws env licenceDays agora (some f) json).store
        = some (putDoc store codigo (criar_documento_licenca licenceDays agora codigo
            (info.email.getD "") info.cpf
            ((pyOrStr info.transaction_code (some nc)).getD nc) "mensal"))
    ∧ (pagbank_webhook consultar (some store) draws env licenceDays agora (some f) json).emails = 1
    ∧ (env ≠ EmailEnv.smtpFalha →
        (pagbank_webhook consultar (some store) draws env licenceDays agora (some f) json).resp
          = Except.ok
              { httpStatus := 200, detail := none, ok := some true, motivo := none
                ignored := none, status := none, licenca_gerada := some codigo
                status_pagbank := info.status, email := info.email })
    ∧ (env = EmailEnv.smtpFalha →
        (pagbank_webhook consultar (some store) draws env licenceDays agora (some f) json).resp
          = Except.error PyErr.smtpError) := by
  have hex : extrair_notification_code (some f) json = some nc := by
    simp [extrair_notification_code, hnc, pyTruthyStr, hne]
  cases env <;>
    simp [pagbank_webhook, hex, hne, pagbank_webhook_apos_codigo, hinfo, hemail,
      hpago, hdraw, enviar_email_licenca]

/-- C6 (amended): after the record is persisted, no email outcome rolls
it back — the record remains in the store for every SMTP environment.
When the email step does not raise (including the delivery-failure
mode the code handles itself, SMTP unconfigured, where the data is
only logged) the webhook still returns the success response carrying
the generated code; but when the SMTP send raises, the exception
escapes and the success response is not returned, though the record
stays persisted. -/
theorem c6_email_nao_desfaz_licenca (consultar : String → Option PagInfo)
    (store : Store) (draws : List String) (licenceDays : Nat) (agora : Int)
    (f : FormBody) (json : Option JsonBody) (nc codigo : String) (info : PagInfo)
    (hnc : pyOrStr f.notificationCode f.notification_code = some nc)
    (hne : nc ≠ "")
    (hinfo : consultar nc = some info)
    (hemail : pyTruthyStr info.email = true)
    (hpago : status_pagbank_e_pago info.status = true)
    (hdraw : sortear_codigo_livre store draws = some codigo) :
    ∀ env : EmailEnv,
      (pagbank_webhook consultar (some store) draws env licenceDays agora (some f) json).store
          = some (putDoc store codigo (criar_documento_licenca licenceDays agora codigo
              (info.email.getD "") info.cpf
              ((pyOrStr info.transaction_code (some nc)).getD nc) "mensal"))
      ∧ (env ≠ EmailEnv.smtpFalha →
          (pagbank_webhook consultar (some store) draws env licenceDays agora (some f) json).resp
            = Except.ok
                { httpStatus := 200, detail := none, ok := some true, motivo := none
                  ignored := none, status := none, licenca_gerada := some codigo
                  status_pagbank := info.status, email := info.email })
      ∧ (env = EmailEnv.smtpFalha →
          (pagbank_webhook consultar (some store) draws env licenceDays agora (some f) json).resp
            = Except.error PyErr.smtpError) := by
  intro env
  obtain ⟨h1, h2, h3, h4⟩ := pagbank_webhook_persiste consultar store draws env
    licenceDays agora f json nc codigo info hnc hne hinfo hemail hpago hdraw
  exact ⟨h1, h3, h4⟩

/-- The form body of the C6 scenario. -/
def formC6 : FormBody :=
  { notificationCode := some "NC6", notification_code := none
    notificationType := none, notification_type := none }

/-- A paid lookup result with purchaser email, used by C6. -/
def infoC6 : PagInfo :=
  { status := some "3", transaction_code := some "TX6", reference := none
    email := some "a@b.com", cpf := none }

/-- The record the C6 scenario persists. -/
def docC6 : Doc :=
  criar_documento_licenca 30 0 "AB12-CD34" "a@b.com" none "TX6" "mensal"

theorem c6_witness :
    pyOrStr formC6.notificationCode formC6.notification_code = some "NC6"
    ∧ "NC6" ≠ ""
    ∧ (fun _ : String => some infoC6) "NC6" = some infoC6
    ∧ pyTruthyStr infoC6.email = true
    ∧ status_pagbank_e_pago infoC6.status = true
    ∧ sortear_codigo_livre emptyStore ["AB12-CD34"] = some "AB12-CD34"
    ∧ ((pagbank_webhook (fun _ => some infoC6) (some emptyStore) ["AB12-CD34"]
          EmailEnv.smtpNaoConfigurado 30 0
          (some formC6) none).store
        = some (putDoc emptyStore "AB12-CD34" (criar_documento_licenca 30 0 "AB12-CD34"
            (infoC6.email.getD "") infoC6.cpf
            ((pyOrStr infoC6.transaction_code (some "NC6")).getD "NC6") "mensal"))
      ∧ (EmailEnv.smtpNaoConfigurado ≠ EmailEnv.smtpFalha →
          (pagbank_webhook (fun _ => some infoC6) (some emptyStore) ["AB12-CD34"]
            EmailEnv.smtpNaoConfigurado 30 0
            (some formC6) none).resp
            = Except.ok
                { httpStatus := 200, detail := none, ok := some true, motivo := none
                  ignored := none, status := none, licenca_gerada := some "AB12-CD34"
                  status_pagbank := infoC6.status, email := infoC6.email })
      ∧ (EmailEnv.smtpNaoConfigurado = EmailEnv.smtpFalha →
          (pagbank_webhook (fun _ => some infoC6) (some emptyStore) ["AB12-CD34"]
            EmailEnv.smtpNaoConfigurado 30 0
            (some formC6) none).resp
            = Except.error PyErr.smtpError)) :=
  ⟨rfl, by decide, rfl, rfl, by decide, rfl,
    c6_email_nao_desfaz_licenca (fun _ => some infoC6) emptyStore ["AB12-CD34"] 30 0
      formC6 none "NC6" "AB12-CD34" infoC6 rfl (by decide) rfl rfl (by decide) rfl
      EmailEnv.smtpNaoConfigurado⟩

/-- C6 counterexample: in a concrete paid run where the SMTP send
raises, the persisted record remains in the store but the webhook
does not return the success response — the exception escapes instead,
so a delivery failure can fail the overall operation. -/
theorem c6_counterexample :
    (pagbank_webhook (fun _ => some infoC6) (some emptyStore) ["AB12-CD34"]
        EmailEnv.smtpFalha 30 0
        (some formC6) none).store
      = some (putDoc emptyStore "AB12-CD34" docC6)
    ∧ (pagbank_webhook (fun _ => some infoC6) (some emptyStore) ["AB12-CD34"]
        EmailEnv.smtpFalha 30 0
        (some formC6) none).resp
      = Except.error PyErr.smtpError
    ∧ ¬ ∃ out : WebhookOut,
        (pagbank_webhook (fun _ => some infoC6) (some emptyStore) ["AB12-CD34"]
          EmailEnv.smtpFalha 30 0
          (some formC6) none).resp
          = Except.ok out := by
  refine ⟨rfl, rfl, ?_⟩
  rintro ⟨out, h⟩
  rw [show (pagbank_webhook (fun _ => some infoC6) (some emptyStore) ["AB12-CD34"]
      EmailEnv.smtpFalha 30 0
      (some formC6) none).resp
      = Except.error PyErr.smtpError from rfl] at h
  exact Except.noConfusion h

/-- Helper: the collision-retry loop only ever returns a code with no
existing document. -/
theorem sortear_codigo_livre_fresco (st : Store) (ds : List String) :
    ∀ c : String, sortear_codigo_livre st ds = some c → st c = none := by
  induction ds with
  | nil => intro c h; exact absurd h (by simp [sortear_codigo_livre])
  | cons d rest ih =>
    intro c h
    by_cases hd : (st d).isSome
    · exact ih c (by simpa [sortear_codigo_livre, hd] using h)
    · have hdc : d = c := by simpa [sortear_codigo_livre, hd] using h
      subst hdc
      exact Option.not_isSome_iff_eq_none.mp hd

/-- C4: a drawn code that already exists is redrawn, the record is
persisted only under a code whose exists-probe is false, and two
issuances in which the second's first draw collides with the first's
persisted code still leave two distinct persisted records in the
store. -/
theorem c4_colisao_redraw
    (consultar1 consultar2 : String → Option PagInfo) (s0 : Store)
    (c1 c2 nc1 nc2 : String) (info1 info2 : PagInfo)
    (env1 env2 : EmailEnv) (licenceDays : Nat) (t1 t2 : Int)
    (f1 f2 : FormBody)
    (h1nc : pyOrStr f1.notificationCode f1.notification_code = some nc1)
    (h1ne : nc1 ≠ "")
    (h1info : consultar1 nc1 = some info1)
    (h1email : pyTruthyStr info1.email = true)
    (h1pago : status_pagbank_e_pago info1.status = true)
    (h2nc : pyOrStr f2.notificationCode f2.notification_code = some nc2)
    (h2ne : nc2 ≠ "")
    (h2info : consultar2 nc2 = some info2)
    (h2email : pyTruthyStr info2.email = true)
    (h2pago : status_pagbank_e_pago info2.status = true)
    (hc1 : s0 c1 = none) (hc2 : s0 c2 = none) (hne : c1 ≠ c2) :
    (∀ (st : Store) (ds : List String) (c : String),
        sortear_codigo_livre st ds = some c → st c = none)
    ∧ ∃ s2 : Store,
        (pagbank_webhook consultar2
            ((pagbank_webhook consultar1 (some s0) [c1] env1 licenceDays t1
              (some f1) none).store)
            [c1, c2] env2 licenceDays t2 (some f2) none).store = some s2
        ∧ (∃ d1 : Doc, s2 c1 = some d1)
        ∧ (∃ d2 : Doc, s2 c2 = some d2)
        ∧ c1 ≠ c2 := by
  have hdraw1 : sortear_codigo_livre s0 [c1] = some c1 := by
    simp [sortear_codigo_livre, hc1]
  obtain ⟨hst1, -, -, -⟩ := pagbank_webhook_persiste consultar1 s0 [c1] env1
    licenceDays t1 f1 none nc1 c1 info1 h1nc h1ne h1info h1email h1pago hdraw1
  refine ⟨sortear_codigo_livre_fresco, ?_⟩
  set d1 := criar_documento_licenca licenceDays t1 c1 (info1.email.getD "") info1.cpf
    ((pyOrStr info1.transaction_code (some nc1)).getD nc1) "mensal" with hd1
  have hne' : c2 ≠ c1 := Ne.symm hne
  have hs1c1 : putDoc s0 c1 d1 c1 = some d1 := by simp [putDoc]
  have hs1c2 : putDoc s0 c1 d1 c2 = none := by simp [putDoc, hne', hc2]
  have hdraw2 : sortear_codigo_livre (putDoc s0 c1 d1) [c1, c2] = some c2 := by
    simp [sortear_codigo_livre, hs1c1, hs1c2]
  obtain ⟨hst2, -, -, -⟩ := pagbank_webhook_persiste consultar2 (putDoc s0 c1 d1)
    [c1, c2] env2 licenceDays t2 f2 none nc2 c2 info2 h2nc h2ne h2info h2email
    h2pago hdraw2
  rw [hst1]
  refine ⟨putDoc (putDoc s0 c1 d1) c2
      (criar_documento_licenca licenceDays t2 c2 (info2.email.getD "") info2.cpf
        ((pyOrStr info2.transaction_code (some nc2)).getD nc2) "mensal"),
    hst2, ⟨d1, ?_⟩,
    ⟨criar_documento_licenca licenceDays t2 c2 (info2.email.getD "") info2.cpf
        ((pyOrStr info2.transaction_code (some nc2)).getD nc2) "mensal", ?_⟩, hne⟩
  · simp [putDoc, hne]
  · simp [putDoc]

/-- A paid lookup result with purchaser email and tax id, used by C4. -/
def infoC4 : PagInfo :=
  { status := some "4", transaction_code := some "TX4", reference := none
    email := some "x@y.z", cpf := some "12345678900" }

/-- The form body of the C4 scenario. -/
def formC4 : FormBody :=
  { notificationCode := some "NC4", notification_code := none
    notificationType := none, notification_type := none }

theorem c4_witness :
    pyOrStr formC4.notificationCode formC4.notification_code = some "NC4"
    ∧ "NC4" ≠ ""
    ∧ (fun _ : String => some infoC4) "NC4" = some infoC4
    ∧ pyTruthyStr infoC4.email = true
    ∧ status_pagbank_e_pago infoC4.status = true
    ∧ emptyStore "AAAA-1111" = none
    ∧ emptyStore "BBBB-2222" = none
    ∧ "AAAA-1111" ≠ "BBBB-2222"
    ∧ ((∀ (st : Store) (ds : List String) (c : String),
          sortear_codigo_livre st ds = some c → st c = none)
      ∧ ∃ s2 : Store,
          (pagbank_webhook (fun _ => some infoC4)
              ((pagbank_webhook (fun _ => some infoC4) (some emptyStore) ["AAAA-1111"]
                EmailEnv.smtpOk 30 0 (some formC4) none).store)
              ["AAAA-1111", "BBBB-2222"] EmailEnv.smtpOk 30 5 (some formC4) none).store
            = some s2
          ∧ (∃ d1 : Doc, s2 "AAAA-1111" = some d1)
          ∧ (∃ d2 : Doc, s2 "BBBB-2222" = some d2)
          ∧ "AAAA-1111" ≠ "BBBB-2222") :=
  ⟨rfl, by decide, rfl, rfl, by decide, rfl, rfl, by decide,
    c4_colisao_redraw (fun _ => some infoC4) (fun _ => some infoC4) emptyStore
      "AAAA-1111" "BBBB-2222" "NC4" "NC4" infoC4 infoC4 EmailEnv.smtpOk EmailEnv.smtpOk
      30 0 5 formC4 formC4 rfl (by decide) rfl rfl (by decide) rfl (by decide) rfl rfl
      (by decide) rfl rfl (by decide)⟩
